import Mathlib

/-!
Shallow embedding of the task-dispatch pipeline of `grpc-in-go`:
the producer (generator) loop in `producer/main.go`, the consumer's
`SendTask` handler in `consumer/main.go`, and the sqlc-generated
persistence layer (`CreateTask`, `UpdateTaskState`) over the `tasks`
table of `sql/schema.sql`.

External effects (the Postgres driver, the gRPC transport, the
`x/time/rate` limiter's clock) are modelled by explicit oracle
parameters: a `Bool` saying whether the call succeeded, and `Nat`
instants standing for `CURRENT_TIMESTAMP`.
-/

namespace GrpcInGo

/-- Task lifecycle states, from `sql/schema.sql`:
`state TEXT CHECK (state IN ('received', 'processing', 'done'))`. -/
inductive TaskState
  | received
  | processing
  | done
deriving DecidableEq

/-- A row of the `tasks` table (`sql/schema.sql`). `id`, `type`, `value`
are Go `int32` values, modelled as `Int`; the two `TIMESTAMPTZ` columns
are modelled as abstract `Nat` instants. -/
structure Task where
  id : Int
  type : Int
  value : Int
  state : TaskState
  creationTime : Nat
  lastUpdateTime : Nat
deriving DecidableEq

/-- The `tasks` table together with the `SERIAL` id sequence backing
`id SERIAL PRIMARY KEY`: `nextId` is the next value the sequence hands out. -/
structure DB where
  rows : List Task
  nextId : Int
deriving DecidableEq

/-- An opaque store/driver error (Go `error` from `database/sql`). -/
inductive StoreErr
  | execError
deriving DecidableEq

/-- `Queries.CreateTask` (src/unnamed/part_008, lines 13-29), running
`INSERT INTO tasks (type, value, state) VALUES ($1, $2, 'received') RETURNING id`.
`execOk` is the oracle for the driver call succeeding. On success the store
assigns the next serial id, inserts the row with state `'received'` and both
timestamps defaulted to `CURRENT_TIMESTAMP` (`now`), and returns the id with
a nil error; on failure Go's `createTask` wrapper returns `(0, err)` and the
table is untouched. -/
def createTask (db : DB) (execOk : Bool) (ty v : Int) (now : Nat) :
    DB × Int × Option StoreErr :=
  if execOk then
    (⟨db.rows ++ [⟨db.nextId, ty, v, TaskState.received, now, now⟩], db.nextId + 1⟩,
      db.nextId, none)
  else
    (db, 0, some StoreErr.execError)

/-- `Queries.UpdateTaskState` (src/unnamed/part_008, lines 83-95), running
`UPDATE tasks SET state = $2, last_update_time = CURRENT_TIMESTAMP WHERE id = $1`.
The query has no guard on the current state: every matching row gets the new
state and a fresh `last_update_time` (`now`). The Go function returns only the
driver error of `ExecContext` (`execOk` oracle) and never inspects the number
of affected rows, so a zero-row update is reported as success (nil error). -/
def updateTaskState (db : DB) (execOk : Bool) (id : Int) (st : TaskState) (now : Nat) :
    DB × Option StoreErr :=
  if execOk then
    (⟨db.rows.map (fun t => if t.id = id then { t with state := st, lastUpdateTime := now } else t),
      db.nextId⟩, none)
  else
    (db, some StoreErr.execError)

/-- `const maxBacklog = 100` (producer/main.go, line 64). -/
def maxBacklog : Int := 100

/-- Observable events of one producer loop iteration
(producer/main.go, lines 135-159). `incr` is `currentBacklog++`,
`decr` is `currentBacklog--`, and `dispatch b ok` is the synchronous
`sendTask` call made while the backlog counter holds `b`, with `ok` the
outcome of the RPC (sendTask itself logs and swallows a failure). -/
inductive GenEvent
  | refusedFull
  | createFail
  | incr
  | dispatch (backlogDuring : Int) (sendOk : Bool)
  | decr
deriving DecidableEq

/-- One iteration of the producer ticker loop (producer/main.go, lines
135-159), literally: if `currentBacklog >= maxBacklog` the tick is skipped;
otherwise `createTask` runs (its success abstracted by the `createOk`
oracle) and on create failure the loop `continue`s with no counter change;
on success the counter is incremented, `sendTask` is called inline (its
error is logged inside `sendTask` and never propagated), and the counter
is decremented. Returns the new counter and the iteration's event list. -/
def genTick (b : Int) (createOk sendOk : Bool) : Int × List GenEvent :=
  if b ≥ maxBacklog then
    (b, [GenEvent.refusedFull])
  else if createOk then
    (b + 1 - 1, [GenEvent.incr, GenEvent.dispatch (b + 1) sendOk, GenEvent.decr])
  else
    (b, [GenEvent.createFail])

/-- The producer loop run over a finite schedule of ticks; each element of
`outs` is the `(createOk, sendOk)` oracle pair for that tick. -/
def genRun (b : Int) : List (Bool × Bool) → Int × List GenEvent
  | [] => (b, [])
  | o :: rest =>
    let r := genTick b o.1 o.2
    let rr := genRun r.1 rest
    (rr.1, r.2 ++ rr.2)

/-- Recognizer for the `currentBacklog++` event. -/
def isIncr : GenEvent → Bool
  | GenEvent.incr => true
  | _ => false

/-- Recognizer for the `currentBacklog--` event. -/
def isDecr : GenEvent → Bool
  | GenEvent.decr => true
  | _ => false

/-- Holds when an event is not a dispatch carried out while the backlog
counter exceeds `n`; used to bound how many dispatches are in flight. -/
def dispatchAtMost (n : Int) : GenEvent → Bool
  | GenEvent.dispatch m _ => decide (m ≤ n)
  | _ => true

/-- The admission step of the generator, extracted from producer/main.go:
the backlog check `if currentBacklog >= maxBacklog { continue }` (lines
136-139) together with the counter increment `currentBacklog++` (line 152)
taken on the admitted path. Returns whether the task is admitted and the
resulting counter; parameterised by the bound `K` (`maxBacklog` in the
source). -/
def tryAdmitStep (K c : Int) : Bool × Int :=
  if c ≥ K then (false, c) else (true, c + 1)

/-- The release step: `currentBacklog--` (producer/main.go, line 157). -/
def release (c : Int) : Int := c - 1

/-- `n` consecutive admission attempts starting from counter `c`, with no
releases in between; returns the final counter and whether every attempt
was admitted. -/
def tryAdmitN (K : Int) (c : Int) : Nat → Int × Bool
  | 0 => (c, true)
  | n + 1 =>
    let r := tryAdmitStep K c
    let rest := tryAdmitN K r.2 n
    (rest.1, r.1 && rest.2)

/-- The gRPC `TaskRequest` message fields used by the consumer
(`pb.TaskRequest`: `Id`, `Type`, `Value`, all `int32`). -/
structure TaskRequest where
  id : Int
  type : Int
  value : Int
deriving DecidableEq

/-- `delayTime := time.Duration(req.Value) * time.Millisecond`
(consumer/main.go, line 259), expressed in milliseconds. -/
def delayMillis (v : Int) : Int := v

/-- Observable events of one `SendTask` invocation on the consumer:
`waitFailed` is the logged (not returned) rate-limiter failure;
`transition st ok` is an `updateTaskState` call to state `st` with driver
outcome `ok`; `sleep ms` is the simulated-work `time.Sleep`. -/
inductive ProcEvent
  | waitFailed
  | transition (st : TaskState) (ok : Bool)
  | sleep (ms : Int)
deriving DecidableEq

/-- Result of one `SendTask` invocation: the final table, the event trace,
and whether a successful `TaskResponse` (rather than an error) was
returned to the caller. -/
structure ProcResult where
  db : DB
  trace : List ProcEvent
  ok : Bool
deriving DecidableEq

/-- The consumer's `SendTask` handler (consumer/main.go, lines 236-302),
literally: `s.limiter.Wait(ctx)` is consulted first, but on failure the
error is only logged (`waitFailed` event) and execution continues; the
task is moved to `processing` (aborting with the error if that write
fails); the handler sleeps `delayMillis req.value` milliseconds; the task
is moved to `done` (aborting with the error if that write fails); finally
a successful response is returned. `waitOk`, `updProcOk`, `updDoneOk` are
the oracles for the limiter wait and the two driver calls; `now1`, `now2`
are the `CURRENT_TIMESTAMP` instants of the two updates. -/
def sendTaskHandler (db : DB) (waitOk updProcOk updDoneOk : Bool)
    (req : TaskRequest) (now1 now2 : Nat) : ProcResult :=
  let t0 : List ProcEvent := if waitOk then [] else [ProcEvent.waitFailed]
  let r1 := updateTaskState db updProcOk req.id TaskState.processing now1
  match r1.2 with
  | some _ => ⟨r1.1, t0 ++ [ProcEvent.transition TaskState.processing false], false⟩
  | none =>
    let t1 := t0 ++ [ProcEvent.transition TaskState.processing true,
                     ProcEvent.sleep (delayMillis req.value)]
    let r2 := updateTaskState r1.1 updDoneOk req.id TaskState.done now2
    match r2.2 with
    | some _ => ⟨r2.1, t1 ++ [ProcEvent.transition TaskState.done false], false⟩
    | none => ⟨r2.1, t1 ++ [ProcEvent.transition TaskState.done true], true⟩

/-- The consumer's rate-limiter configuration surface
(consumer/main.go, lines 104-106): only `tasks_per_second` is
configurable. Go's `float64` is modelled by `Rat`. -/
structure RateLimiterCfg where
  tasksPerSecond : Rat
deriving DecidableEq

/-- An `x/time/rate` limiter as fixed at construction: refill rate
(tokens/second) and burst size. -/
structure Limiter where
  limit : Rat
  burst : Int
deriving DecidableEq

/-- `rate.NewLimiter(r, b)`: both parameters are fixed at construction. -/
def newLimiter (r : Rat) (b : Int) : Limiter := ⟨r, b⟩

/-- The consumer's limiter construction (consumer/main.go, line 215):
`rate.NewLimiter(rate.Limit(config.RateLimiter.TasksPerSecond), 1)` —
the rate comes from configuration, the burst is the literal `1`. -/
def mkConsumerLimiter (cfg : RateLimiterCfg) : Limiter :=
  newLimiter cfg.tasksPerSecond 1

/-- An update whose id matches no row of the list leaves the list unchanged. -/
theorem map_update_no_match (l : List Task) (i : Int) (st : TaskState) (now : Nat)
    (h : ∀ t ∈ l, t.id ≠ i) :
    l.map (fun t => if t.id = i then { t with state := st, lastUpdateTime := now } else t) = l := by
  induction l with
  | nil => rfl
  | cons a l ih =>
    simp only [List.map_cons]
    rw [if_neg (h a (List.mem_cons_self a l))]
    rw [ih (fun t ht => h t (List.mem_cons_of_mem a ht))]

/-- Claim C1: the spec requires that when the rate-limiter acquisition fails,
`SendTask` aborts without any state transition, leaving the task `received`.
The code does not: at the failing input — task 1 (`type` 3, `value` 5) in
state `received`, with `limiter.Wait` failing (cancelled context) and both
store writes succeeding — the handler merely logs the failure, still
transitions the task to `processing` and then `done`, and returns a
successful response. -/
theorem rate_limit_failure_still_processes :
    sendTaskHandler ⟨[⟨1, 3, 5, TaskState.received, 0, 0⟩], 2⟩ false true true ⟨1, 3, 5⟩ 1 2 =
      ⟨⟨[⟨1, 3, 5, TaskState.done, 0, 2⟩], 2⟩,
        [ProcEvent.waitFailed, ProcEvent.transition TaskState.processing true,
         ProcEvent.sleep 5, ProcEvent.transition TaskState.done true], true⟩ := by
  decide

/-- Claim C3 counterexample: on a store holding task 1 already in state
`done` with `last_update_time` 5, a second `Transition(1, done)` at instant 9
is neither a no-op nor an invalid-transition error: it succeeds and silently
overwrites `last_update_time` to 9; a regression `Transition(1, received)`
succeeds just the same, so no forward-only discipline is enforced. -/
theorem transition_done_twice_overwrites :
    updateTaskState ⟨[⟨1, 2, 50, TaskState.done, 0, 5⟩], 2⟩ true 1 TaskState.done 9 =
      (⟨[⟨1, 2, 50, TaskState.done, 0, 9⟩], 2⟩, none)
    ∧ updateTaskState ⟨[⟨1, 2, 50, TaskState.done, 0, 5⟩], 2⟩ true 1 TaskState.received 9 =
      (⟨[⟨1, 2, 50, TaskState.received, 0, 9⟩], 2⟩, none) := by
  decide

/-- Claim C3 (amended): the store enforces no transition discipline at all:
`UpdateTaskState` unconditionally writes the requested state to the matching
row, always overwrites its `last_update_time` with the current timestamp, and
reports success — in particular a repeated `done` transition silently
overwrites `last_update_time`. -/
theorem update_state_unconditional (t : Task) (nid : Int) (st : TaskState) (now : Nat) :
    updateTaskState ⟨[t], nid⟩ true t.id st now =
      (⟨[{ t with state := st, lastUpdateTime := now }], nid⟩, none) := by
  unfold updateTaskState
  simp

/-- Claim C5: if the store write moving the task to `processing` fails, the
handler returns that failure at once: the table is left exactly as it was,
no simulated-work sleep happens, and no `done` transition is attempted. -/
theorem processing_write_failure_aborts
    (db : DB) (waitOk updDoneOk : Bool) (req : TaskRequest) (now1 now2 : Nat) :
    sendTaskHandler db waitOk false updDoneOk req now1 now2 =
      ⟨db, (if waitOk then [] else [ProcEvent.waitFailed]) ++
        [ProcEvent.transition TaskState.processing false], false⟩ := rfl

/-- Claim C6: the simulated-work delay is exactly `value` milliseconds for
every value in [0, 99] (so the processing duration is at least `value` time
units), and in a successful run the sleep happens strictly between the
`processing` and `done` transitions. -/
theorem simulated_delay_equals_value (v : Int) (h0 : 0 ≤ v) (h1 : v ≤ 99)
    (db : DB) (i ty : Int) (now1 now2 : Nat) :
    delayMillis v = v ∧ v ≤ delayMillis v
    ∧ (sendTaskHandler db true true true ⟨i, ty, v⟩ now1 now2).trace =
        [ProcEvent.transition TaskState.processing true, ProcEvent.sleep (delayMillis v),
         ProcEvent.transition TaskState.done true] := by
  exact ⟨rfl, le_refl v, rfl⟩

/-- Witness for C6 at `value` 50: the delay is 50 ms. -/
theorem simulated_delay_equals_value_witness :
    0 ≤ (50 : Int) ∧ (50 : Int) ≤ 99
    ∧ (delayMillis 50 = 50 ∧ (50 : Int) ≤ delayMillis 50
      ∧ (sendTaskHandler ⟨[], 1⟩ true true true ⟨1, 3, 50⟩ 0 0).trace =
          [ProcEvent.transition TaskState.processing true, ProcEvent.sleep (delayMillis 50),
           ProcEvent.transition TaskState.done true]) :=
  ⟨by decide, by decide, simulated_delay_equals_value 50 (by decide) (by decide) ⟨[], 1⟩ 1 3 0 0⟩

/-- Claim C9 counterexample: under two configurations with different rates
(5 and 7 tasks/second) the constructed limiter's burst is the literal 1 in
both — the burst size is hard-coded at the call site, not taken from
configuration (the configuration surface has no burst field at all). -/
theorem limiter_burst_hardcoded :
    mkConsumerLimiter ⟨5⟩ = ⟨5, 1⟩ ∧ mkConsumerLimiter ⟨7⟩ = ⟨7, 1⟩ :=
  ⟨rfl, rfl⟩

/-- Claim C9 (amended): the consumer's rate limiter is a token bucket whose
refill rate comes from configuration and whose burst size is fixed to the
constant 1 at construction. -/
theorem limiter_from_config (cfg : RateLimiterCfg) :
    mkConsumerLimiter cfg = ⟨cfg.tasksPerSecond, 1⟩ := rfl

/-- Claim C10: transitioning an id that matches no task row reports success
(a nil error) while updating zero rows and leaving the table unchanged; since
a matching transition also reports nil, the caller cannot distinguish the
two outcomes from the returned error. -/
theorem update_missing_id_reports_success (db : DB) (i : Int) (st : TaskState) (now : Nat)
    (h : ∀ t ∈ db.rows, t.id ≠ i) :
    updateTaskState db true i st now = (db, none)
    ∧ ∀ db2 : DB, (updateTaskState db2 true i st now).2 = none := by
  constructor
  · unfold updateTaskState
    rw [if_pos rfl]
    rw [map_update_no_match db.rows i st now h]
  · intro db2
    rfl

/-- Witness for C10: updating id 1 on a table whose only row has id 2
succeeds with the table unchanged. -/
theorem update_missing_id_reports_success_witness :
    (∀ t ∈ (⟨[⟨2, 0, 0, TaskState.received, 0, 0⟩], 3⟩ : DB).rows, t.id ≠ 1)
    ∧ (updateTaskState ⟨[⟨2, 0, 0, TaskState.received, 0, 0⟩], 3⟩ true 1 TaskState.done 9 =
        (⟨[⟨2, 0, 0, TaskState.received, 0, 0⟩], 3⟩, none)
      ∧ ∀ db2 : DB, (updateTaskState db2 true 1 TaskState.done 9).2 = none) :=
  ⟨by decide,
    update_missing_id_reports_success ⟨[⟨2, 0, 0, TaskState.received, 0, 0⟩], 3⟩ 1
      TaskState.done 9 (by decide)⟩

/-- Every branch of `genTick` ends with the counter it started from: the
admitted path increments and then decrements within the same iteration. -/
theorem genTick_fst (b : Int) (c s : Bool) : (genTick b c s).1 = b := by
  unfold genTick
  split
  · rfl
  · split
    · show b + 1 - 1 = b
      omega
    · rfl

/-- One iteration emits equally many `incr` and `decr` events. -/
theorem genTick_counts (b : Int) (c s : Bool) :
    (genTick b c s).2.countP isIncr = (genTick b c s).2.countP isDecr := by
  unfold genTick
  split
  · rfl
  · split
    · rfl
    · rfl

/-- Any run of the producer loop emits equally many `incr` and `decr`
events. -/
theorem genRun_counts (b : Int) (outs : List (Bool × Bool)) :
    (genRun b outs).2.countP isIncr = (genRun b outs).2.countP isDecr := by
  induction outs generalizing b with
  | nil => rfl
  | cons o rest ih =>
    simp only [genRun, List.countP_append]
    rw [genTick_counts, ih]

/-- The counter returns to its starting value after any run. -/
theorem genRun_fst (b : Int) (outs : List (Bool × Bool)) : (genRun b outs).1 = b := by
  induction outs generalizing b with
  | nil => rfl
  | cons o rest ih =>
    simp only [genRun]
    rw [genTick_fst]
    exact ih b

/-- Within one iteration every dispatch is made with the counter at most
one above the iteration's starting value. -/
theorem genTick_dispatch_bound (b : Int) (c s : Bool) :
    ((genTick b c s).2.all (dispatchAtMost (b + 1))) = true := by
  unfold genTick
  split
  · rfl
  · split
    · simp [dispatchAtMost]
    · rfl

/-- Over any run every dispatch is made with the counter at most one above
the run's starting value. -/
theorem genRun_dispatch_bound (b : Int) (outs : List (Bool × Bool)) :
    ((genRun b outs).2.all (dispatchAtMost (b + 1))) = true := by
  induction outs generalizing b with
  | nil => rfl
  | cons o rest ih =>
    simp only [genRun, List.all_append]
    rw [genTick_fst]
    rw [genTick_dispatch_bound b o.1 o.2, ih b]
    rfl

/-- Claim C2: over every execution of the generator loop, each increment of
the backlog counter is matched by exactly one decrement — the decrement runs
unconditionally after `sendTask` returns, whether or not the RPC failed
(the schedule `outs` includes runs where every `SendTask` errors). -/
theorem backlog_incr_matched_by_decr (outs : List (Bool × Bool)) :
    (genRun 0 outs).2.countP isIncr = (genRun 0 outs).2.countP isDecr :=
  genRun_counts 0 outs

/-- The admission step admits-and-increments exactly when the counter is
strictly below the bound, and refuses with no side effect otherwise. -/
theorem tryAdmitStep_spec (K c : Int) :
    ((tryAdmitStep K c).1 = true ↔ c < K)
    ∧ (c < K → tryAdmitStep K c = (true, c + 1))
    ∧ (K ≤ c → tryAdmitStep K c = (false, c)) := by
  unfold tryAdmitStep
  by_cases hc : c ≥ K
  · rw [if_pos hc]
    refine ⟨by simp; omega, fun h => absurd hc (by omega), fun _ => rfl⟩
  · rw [if_neg hc]
    refine ⟨by simp; omega, fun _ => rfl, fun h => absurd h (by omega)⟩

/-- `n` consecutive admissions all succeed while they fit under the bound. -/
theorem tryAdmitN_success (K : Int) :
    ∀ (n : Nat) (c : Int), c + (n : Int) ≤ K → tryAdmitN K c n = (c + (n : Int), true) := by
  intro n
  induction n with
  | zero =>
    intro c h
    simp [tryAdmitN]
  | succ n ih =>
    intro c h
    have hc : c < K := by push_cast at h; omega
    have hstep : tryAdmitStep K c = (true, c + 1) := (tryAdmitStep_spec K c).2.1 hc
    have h2 : (c + 1) + (n : Int) ≤ K := by push_cast at h ⊢; omega
    simp only [tryAdmitN, hstep, ih (c + 1) h2, Bool.true_and]
    congr 1
    omega

/-- Claim C4: admission returns true and increments the counter iff the
counter is strictly below the bound, else returns false with no side effect;
with bound `K`, `K` admissions from an empty backlog all succeed ending at
counter `K`, the next attempt is refused, and after one release the next
attempt succeeds. -/
theorem tryAdmit_spec (K : Int) (hK : 0 ≤ K) :
    (∀ c : Int, ((tryAdmitStep K c).1 = true ↔ c < K)
      ∧ (c < K → tryAdmitStep K c = (true, c + 1))
      ∧ (K ≤ c → tryAdmitStep K c = (false, c)))
    ∧ tryAdmitN K 0 K.toNat = (K, true)
    ∧ (tryAdmitStep K K).1 = false
    ∧ (tryAdmitStep K (release K)).1 = true := by
  refine ⟨fun c => tryAdmitStep_spec K c, ?_, ?_, ?_⟩
  · have h := tryAdmitN_success K K.toNat 0 (by omega)
    rw [h]
    congr 1
    omega
  · have h3 := (tryAdmitStep_spec K K).2.2 (le_refl K)
    rw [h3]
  · have h4 := (tryAdmitStep_spec K (release K)).2.1 (by unfold release; omega)
    rw [h4]

/-- Witness for C4 at bound 2: two admissions fill the backlog, the third is
refused, and after a release the next admission succeeds. -/
theorem tryAdmit_spec_witness :
    0 ≤ (2 : Int)
    ∧ ((∀ c : Int, ((tryAdmitStep 2 c).1 = true ↔ c < 2)
        ∧ (c < 2 → tryAdmitStep 2 c = (true, c + 1))
        ∧ (2 ≤ c → tryAdmitStep 2 c = (false, c)))
      ∧ tryAdmitN 2 0 (2 : Int).toNat = (2, true)
      ∧ (tryAdmitStep 2 2).1 = false
      ∧ (tryAdmitStep 2 (release 2)).1 = true) :=
  ⟨by decide, tryAdmit_spec 2 (by decide)⟩

/-- Claim C7: `CreateTask` inserts the new row with state `received` and
returns the store-assigned serial id; on create failure no id is returned
(the Go wrapper yields `(0, err)`), the table is untouched, and the
generator's tick ends with the backlog counter unchanged and no dispatch. -/
theorem create_assigns_id_and_no_slot_on_failure
    (db : DB) (ty v : Int) (now : Nat) (b : Int) (s : Bool) (hb : b < maxBacklog) :
    createTask db true ty v now =
      (⟨db.rows ++ [⟨db.nextId, ty, v, TaskState.received, now, now⟩], db.nextId + 1⟩,
        db.nextId, none)
    ∧ createTask db false ty v now = (db, 0, some StoreErr.execError)
    ∧ genTick b false s = (b, [GenEvent.createFail]) := by
  refine ⟨rfl, rfl, ?_⟩
  unfold genTick
  rw [if_neg (not_le.mpr hb)]
  rfl

/-- Witness for C7 on an empty table with backlog 0. -/
theorem create_assigns_id_and_no_slot_on_failure_witness :
    (0 : Int) < maxBacklog
    ∧ (createTask ⟨[], 1⟩ true 2 50 0 =
        (⟨[⟨1, 2, 50, TaskState.received, 0, 0⟩], 2⟩, 1, none)
      ∧ createTask ⟨[], 1⟩ false 2 50 0 = (⟨[], 1⟩, 0, some StoreErr.execError)
      ∧ genTick 0 false true = (0, [GenEvent.createFail])) :=
  ⟨by decide, create_assigns_id_and_no_slot_on_failure ⟨[], 1⟩ 2 50 0 0 true (by decide)⟩

set_option maxRecDepth 40000 in
/-- Claim C8 counterexample: over a concrete run of 120 consecutive
successful ticks — more ticks than `maxBacklog` — every dispatch happens
with the backlog counter exactly 1 (at most 1, and not at most 0, so
dispatches do occur) and the counter ends at 0: dispatches never accumulate,
refuting that up to `maxBacklog` = 100 dispatches can be in flight. -/
theorem dispatch_never_concurrent_concrete :
    ((genRun 0 (List.replicate 120 (true, true))).2.all (dispatchAtMost 1)) = true
    ∧ ((genRun 0 (List.replicate 120 (true, true))).2.all (dispatchAtMost 0)) = false
    ∧ (genRun 0 (List.replicate 120 (true, true))).1 = 0 := by
  decide

/-- Claim C8 (amended): dispatch is synchronous relative to the generator's
loop: `sendTask` is called inline and the backlog slot is released before the
next tick is handled, so starting from backlog 0 the counter is 0 again after
every run and no dispatch is ever made with the counter above 1 — at most one
dispatch is in flight at any time. -/
theorem dispatch_synchronous (outs : List (Bool × Bool)) :
    (genRun 0 outs).1 = 0
    ∧ ((genRun 0 outs).2.all (dispatchAtMost 1)) = true := by
  refine ⟨genRun_fst 0 outs, ?_⟩
  simpa using genRun_dispatch_bound 0 outs

end GrpcInGo
